import Mathlib

/-!
Shallow embedding of the `nez` 6502-emulator core
(files `include/common.hpp`, `include/cpu.hpp`, `src/cpu.cpp`)
and proofs about the properties stated in the specification.

Modelling conventions:
* `nez::Byte` is `std::uint8_t`; byte values are `Nat` with explicit `% 256`
  wherever the 8-bit type truncates or wraps.
* The memory array `std::array<nez::Byte, 0xFFFF>` is modelled as a total
  function `Nat → Nat` together with the explicit length `memSize = 0xFFFF`;
  element reads go through `CPU.mem8`, which reduces the stored value mod 256
  because the element type of the array is `uint8_t`.  `operator[]` has
  defined behavior only for indices below the array length, so the public
  accessors `read_memory` / `write_memory_direct` return `Option`-values:
  `none` models an out-of-bounds (undefined-behavior) access.
* `NEZ_ERROR(msg)` (common.hpp, with `NEZ_DEBUG` defined) prints `msg` and
  calls `abort()`, terminating the process.  A call of `step` is therefore
  modelled by `StepResult`: either `ok` with the successor state, or
  `abortError` carrying the message and the CPU state at the abort point.
-/

namespace nez

/-- Length of the source's memory array `std::array<nez::Byte, 0xFFFF>`:
`0xFFFF = 65535` entries, valid indices `0 .. 65534`. -/
def memSize : Nat := 0xFFFF

/-- The CPU state: the six registers (all of C++ type `Register = nez::Byte`,
declared in this order in `cpu.hpp`) and the memory array. -/
structure CPU where
  rPC : Nat
  rX : Nat
  rY : Nat
  rA : Nat
  rStatus : Nat
  rSP : Nat
  memory : Nat → Nat

/-- Read the array element `memory[i]`.  The element type is `uint8_t`, so the
stored value is reduced mod 256. -/
def CPU.mem8 (c : CPU) (i : Nat) : Nat := c.memory i % 256

/-- The opcode enumeration `enum class Op : nez::Byte` from `cpu.hpp`,
one constructor per enumerator. -/
inductive Op where
  | LDAimm
  | LDAzrpg
  | JAM0
  | JAM1
  | JAM2
  | JAM3
  | JAM4
  | JAM5
  | JAM6
  | JAM7
  | JAM9
  | JAMB
  | JAMD
  | JAMF
deriving DecidableEq

/-- The byte value of each `Op` enumerator, exactly as written in `cpu.hpp`
(note that the source assigns `0xB2` to both `JAMB` and `JAMD`). -/
def Op.val : Op → Nat
  | .LDAimm => 0xA9
  | .LDAzrpg => 0xA5
  | .JAM0 => 0x02
  | .JAM1 => 0x12
  | .JAM2 => 0x22
  | .JAM3 => 0x32
  | .JAM4 => 0x42
  | .JAM5 => 0x52
  | .JAM6 => 0x62
  | .JAM7 => 0x72
  | .JAM9 => 0x92
  | .JAMB => 0xB2
  | .JAMD => 0xB2
  | .JAMF => 0xF2

/-- The JAM enumerators of `Op`, in source order. -/
def jamOps : List Op :=
  [.JAM0, .JAM1, .JAM2, .JAM3, .JAM4, .JAM5, .JAM6, .JAM7, .JAM9, .JAMB, .JAMD, .JAMF]

/-- The enumeration `CPU::RegisterName` from `cpu.hpp` (without the
`numRegisters` sentinel, which only counts the enumerators). -/
inductive RegisterName where
  | a
  | x
  | y
  | pc
  | status
  | sp
deriving DecidableEq

/-- The underlying `std::size_t` value of each `RegisterName` enumerator:
`a = 0, x, y, pc, status, sp` assigned consecutively. -/
def RegisterName.val : RegisterName → Nat
  | .a => 0
  | .x => 1
  | .y => 2
  | .pc => 3
  | .status => 4
  | .sp => 5

/-- `CPU::read_memory(address)`: `return this->memory[address];`.
`operator[]` is defined only for `address < memSize`; an access at or above
`memSize` is undefined behavior, modelled as `none`. -/
def CPU.read_memory (c : CPU) (address : Nat) : Option Nat :=
  if address < memSize then some (c.mem8 address) else none

/-- `CPU::write_memory_direct(address, value)`: `this->memory[address] = value;`
with parameter type `nez::Byte` (the stored value is `value % 256`).
Defined only for `address < memSize`; out of bounds is undefined behavior,
modelled as `none`. -/
def CPU.write_memory_direct (c : CPU) (address value : Nat) : Option CPU :=
  if address < memSize then
    some { c with memory := fun i => if i = address then value % 256 else c.memory i }
  else none

/-- `CPU::reg_val(reg)`: the `switch` over the register name, returning the
corresponding register, with the `default` branch executing
`NEZ_ERROR("Attempt to read invalid register")`.  The argument is the
numeric (`std::size_t`) enumerator value; the error branch is modelled as an
`Except.error` carrying the message. -/
def CPU.reg_val (c : CPU) (reg : Nat) : Except String Nat :=
  if reg = RegisterName.pc.val then .ok c.rPC
  else if reg = RegisterName.x.val then .ok c.rX
  else if reg = RegisterName.y.val then .ok c.rY
  else if reg = RegisterName.a.val then .ok c.rA
  else if reg = RegisterName.status.val then .ok c.rStatus
  else if reg = RegisterName.sp.val then .ok c.rSP
  else .error "Attempt to read invalid register"

/-- `CPU::next_instr()`: read the byte at `memory[rPC]` and increment `rPC`.
`rPC` has C++ type `nez::Byte` (`uint8_t`), so the increment wraps mod 256.
Returns the fetched byte together with the updated CPU. -/
def CPU.next_instr (c : CPU) : Nat × CPU :=
  (c.mem8 c.rPC, { c with rPC := (c.rPC + 1) % 256 })

/-- `CPU::next_byte()`: identical body to `next_instr`, but returning the
byte as an operand. -/
def CPU.next_byte (c : CPU) : Nat × CPU :=
  (c.mem8 c.rPC, { c with rPC := (c.rPC + 1) % 256 })

/-- Outcome of one `CPU::step()` call.  `ok` is a normal return with the
successor state.  `abortError msg c` models `NEZ_ERROR(msg)`: the process
prints `msg` and `abort()`s while the CPU object is in state `c`.  `oob c`
models an out-of-bounds memory access (undefined behavior) in state `c`;
it is unreachable in `step` because every address `step` reads is below 256. -/
inductive StepResult where
  | ok (c : CPU)
  | abortError (msg : String) (c : CPU)
  | oob (c : CPU)

/-- The CPU state carried by a step outcome. -/
def StepResult.state : StepResult → CPU
  | .ok c => c
  | .abortError _ c => c
  | .oob c => c

/-- `CPU::step()` from `src/cpu.cpp`: fetch the opcode byte with
`next_instr()` and switch on it.  `Op::LDAimm`: `rA = next_byte()`.
`Op::LDAzrpg`: `addr = next_byte(); rA = read_memory(addr)`.  Every other
byte — including every JAM opcode, for which the switch has no case —
reaches the `default` branch, `NEZ_ERROR("Not implemented")`. -/
def CPU.step (c : CPU) : StepResult :=
  let fetched := c.next_instr
  if fetched.1 = Op.LDAimm.val then
    let operand := fetched.2.next_byte
    .ok { operand.2 with rA := operand.1 }
  else if fetched.1 = Op.LDAzrpg.val then
    let operand := fetched.2.next_byte
    match operand.2.read_memory operand.1 with
    | some v => .ok { operand.2 with rA := v }
    | none => .oob operand.2
  else
    .abortError "Not implemented" fetched.2

/-- The memory addresses `step c` reads, in program order, mirroring the
control flow of `CPU::step`: the opcode fetch at `rPC`; for the two LDA
forms additionally the operand fetch at `rPC + 1 (mod 256)`; for `LDAzrpg`
additionally the zero-page data read at the operand byte. -/
def CPU.stepReadAddrs (c : CPU) : List Nat :=
  let pc := c.rPC
  let pc1 := (pc + 1) % 256
  if c.mem8 pc = Op.LDAimm.val then [pc, pc1]
  else if c.mem8 pc = Op.LDAzrpg.val then [pc, pc1, c.mem8 pc1]
  else [pc]

/-- A value-initialized CPU (`CPU{}` / `new CPU()`, the form used by
`std::make_unique<CPU>()` in `tests/cpu.test.cpp`): the class has no
user-provided constructor, so value-initialization zero-initializes every
member (all six registers and all memory bytes). -/
def CPU.valueInit : CPU :=
  { rPC := 0, rX := 0, rY := 0, rA := 0, rStatus := 0, rSP := 0, memory := fun _ => 0 }

/-- Default-initialization (`CPU c;`) of this class: `CPU` declares no
constructor and no member initializers, so the implicitly-defined default
constructor performs no initialization and every member holds an
indeterminate value.  Consequently any assignment of values to the members
is a possible observation of a default-initialized `CPU` (no constraint
relates the state to anything). -/
def defaultInitPossible (_c : CPU) : Prop := True

/-! ### Helper lemmas shared by the claim theorems -/

/-- Every memory element read is a byte. -/
lemma CPU.mem8_lt (c : CPU) (i : Nat) : c.mem8 i < 256 :=
  Nat.mod_lt _ (by norm_num)

/-- Two wrapped 8-bit increments amount to one wrapped increment by 2. -/
lemma pc_twice_wrap (pc : Nat) : ((pc + 1) % 256 + 1) % 256 = (pc + 2) % 256 := by
  omega

/-- Characterization of `step` when the fetched opcode byte is `0xA9`
(`Op::LDAimm`): the operand byte is loaded into `rA`, `rPC` advances by 2
(mod 256), and nothing else changes. -/
lemma CPU.step_eq_of_LDAimm (c : CPU) (hop : c.mem8 c.rPC = 0xA9) :
    c.step = .ok { c with rPC := (c.rPC + 2) % 256,
                          rA := c.mem8 ((c.rPC + 1) % 256) } := by
  simp only [CPU.step, CPU.next_instr, CPU.next_byte, Op.val, hop, if_pos]
  simp [CPU.mem8, pc_twice_wrap]

/-- Characterization of `step` when the fetched opcode byte is `0xA5`
(`Op::LDAzrpg`): the byte stored at the zero-page address given by the
operand byte is loaded into `rA`, `rPC` advances by 2 (mod 256), and
nothing else changes. -/
lemma CPU.step_eq_of_LDAzrpg (c : CPU) (hop : c.mem8 c.rPC = 0xA5) :
    c.step = .ok { c with rPC := (c.rPC + 2) % 256,
                          rA := c.mem8 (c.mem8 ((c.rPC + 1) % 256)) } := by
  have hb : c.mem8 ((c.rPC + 1) % 256) < memSize :=
    lt_trans (c.mem8_lt _) (by norm_num [memSize])
  simp only [CPU.step, CPU.next_instr, CPU.next_byte, Op.val, hop]
  norm_num
  simp only [CPU.read_memory]
  rw [if_pos]
  · simp [CPU.mem8, pc_twice_wrap]
  · simpa [CPU.mem8] using hb

/-- Characterization of `step` when the fetched opcode byte matches neither
`Op::LDAimm` nor `Op::LDAzrpg`: the `default` branch runs
`NEZ_ERROR("Not implemented")`, aborting the process with the registers
untouched except for the `rPC` increment of the opcode fetch. -/
lemma CPU.step_eq_of_default (c : CPU) (h9 : c.mem8 c.rPC ≠ 0xA9)
    (h5 : c.mem8 c.rPC ≠ 0xA5) :
    c.step = .abortError "Not implemented" { c with rPC := (c.rPC + 1) % 256 } := by
  simp [CPU.step, CPU.next_instr, Op.val, h9, h5]

/-! ### Concrete machine states used to instantiate the claim theorems -/

/-- Program `LDA #$00` at address 0 (memory `[0xA9, 0x00, 0, ...]`), PC = 0,
Status = 0: per the spec the Z flag must be set by the load of zero. -/
def exC1 : CPU :=
  { rPC := 0, rX := 0, rY := 0, rA := 37, rStatus := 0, rSP := 0,
    memory := fun i => if i = 0 then 0xA9 else 0 }

/-- An arbitrary state for the round-trip instantiation. -/
def exC2 : CPU :=
  { rPC := 0, rX := 0, rY := 0, rA := 0, rStatus := 0, rSP := 0,
    memory := fun _ => 0x11 }

/-- Memory filled with the undefined opcode byte `0xFF`, PC = 0, and
non-zero registers so that "registers unchanged" is visible. -/
def exC3 : CPU :=
  { rPC := 0, rX := 1, rY := 2, rA := 3, rStatus := 4, rSP := 5,
    memory := fun _ => 0xFF }

/-- Memory filled with the `JAM0` opcode byte `0x02`, PC = 0, and
non-zero registers so that "registers unchanged" is visible. -/
def exC4 : CPU :=
  { rPC := 0, rX := 1, rY := 2, rA := 3, rStatus := 4, rSP := 5,
    memory := fun _ => 0x02 }

/-- Program `LDA $10` at address 0 (memory `[0xA5, 0x10, 0, ...]`, so the
zero-page cell `0x10` holds 0), PC = 0, Status = 0: per the spec the Z flag
must be set by the load of zero. -/
def exC5 : CPU :=
  { rPC := 0, rX := 0, rY := 0, rA := 37, rStatus := 0, rSP := 0,
    memory := fun i => if i = 0 then 0xA5 else if i = 1 then 0x10 else 0 }

/-- A state with a default-initialized accumulator holding 171: a possible
observation of `CPU c;` because no member of the class has an initializer. -/
def exC7 : CPU := { CPU.valueInit with rA := 171 }

/-- Program `LDA #$66` at address 7, PC = 7, with all other registers and
cells non-zero, for the frame-property instantiation. -/
def exC9 : CPU :=
  { rPC := 7, rX := 1, rY := 2, rA := 3, rStatus := 4, rSP := 5,
    memory := fun i => if i = 7 then 0xA9 else 0x66 }

/-- State used to instantiate the PC/fetch-address bound. -/
def exC10 : CPU :=
  { rPC := 255, rX := 0, rY := 0, rA := 0, rStatus := 0, rSP := 0,
    memory := fun i => if i = 255 then 0xA5 else 0x10 }

/-! ### Claim theorems -/

/-- Claim C1.  Executing a step whose fetched opcode is `LDAimm` (`0xA9`)
with operand byte `v` sets `A = v` and advances `PC` by 2 (mod 256, since
`rPC` is 8-bit) — but, contrary to the claim, `Status` is left exactly
unchanged: the code never computes the Z or N flag, so `Status.Z` is not
set to `(v == 0)` and `Status.N` is not set to bit 7 of `v`. -/
theorem step_LDAimm_sets_A_only (c : CPU) (v : Nat)
    (hop : c.mem8 c.rPC = 0xA9) (hv : c.mem8 ((c.rPC + 1) % 256) = v) :
    c.step = .ok { rPC := (c.rPC + 2) % 256, rX := c.rX, rY := c.rY, rA := v,
                   rStatus := c.rStatus, rSP := c.rSP, memory := c.memory } := by
  rw [c.step_eq_of_LDAimm hop, hv]

/-- Instantiation of C1's theorem at `exC1` (`LDA #$00`, PC = 0, Status = 0):
the accumulator is loaded with 0 and PC ends at 2, yet Status remains 0 —
its Z bit stays clear although the loaded value is zero. -/
theorem step_LDAimm_sets_A_only_witness :
    exC1.step = .ok { rPC := 2, rX := 0, rY := 0, rA := 0, rStatus := 0,
                      rSP := 0, memory := exC1.memory } ∧
      Nat.testBit 0 1 = false :=
  ⟨step_LDAimm_sets_A_only exC1 0 (by decide) (by decide), by decide⟩

/-- Claim C2.  `write_memory_direct` followed by `read_memory` at the same
address is the identity for every address *below* `memSize = 0xFFFF = 65535`
— but the array `std::array<nez::Byte, 0xFFFF>` has only 65535 entries, so
the address `0xFFFF = 65535` (a valid `uint16_t` address which the claim
says is covered) is out of bounds: accessing it is undefined behavior
(modelled as `none`), and the store does not cover all 65536 addresses. -/
theorem write_read_roundtrip_below_array_length (c : CPU) (addr v : Nat)
    (ha : addr < memSize) (hv : v < 256) :
    ((c.write_memory_direct addr v).bind fun c2 => c2.read_memory addr) = some v ∧
      c.write_memory_direct 0xFFFF v = none ∧
      CPU.read_memory c 0xFFFF = none ∧ memSize = 65535 := by
  refine ⟨?_, by simp [CPU.write_memory_direct, memSize],
          by simp [CPU.read_memory, memSize], rfl⟩
  simp [CPU.write_memory_direct, CPU.read_memory, ha, CPU.mem8,
        Nat.mod_eq_of_lt hv]

/-- Instantiation of C2's theorem at address 4660 and byte 77: the round
trip returns 77, and both accesses at address 65535 are out of bounds. -/
theorem write_read_roundtrip_below_array_length_witness :
    ((exC2.write_memory_direct 4660 77).bind fun c2 => c2.read_memory 4660) = some 77 ∧
      exC2.write_memory_direct 0xFFFF 77 = none ∧
      CPU.read_memory exC2 0xFFFF = none ∧ memSize = 65535 :=
  write_read_roundtrip_below_array_length exC2 4660 77 (by decide) (by decide)

/-- Claim C3.  When the fetched opcode byte matches no case of the switch,
`step` does not return any status to the caller: it reaches the `default`
branch and `NEZ_ERROR("Not implemented")` aborts the whole process.  At the
abort point `A`, `X`, `Y`, `Status` and `SP` are unchanged from their
pre-fetch values and `PC` has advanced by 1 (mod 256) for the opcode fetch;
no `Faulted` status and no `UnimplementedOpcode(byte)` report exist in the
code. -/
theorem step_unrecognized_aborts_process (c : CPU)
    (h9 : c.mem8 c.rPC ≠ 0xA9) (h5 : c.mem8 c.rPC ≠ 0xA5) :
    c.step = .abortError "Not implemented"
      { rPC := (c.rPC + 1) % 256, rX := c.rX, rY := c.rY, rA := c.rA,
        rStatus := c.rStatus, rSP := c.rSP, memory := c.memory } :=
  c.step_eq_of_default h9 h5

/-- Instantiation of C3's theorem at `exC3` (opcode byte `0xFF`, PC = 0):
the step aborts the process via `NEZ_ERROR` with every register except PC
untouched. -/
theorem step_unrecognized_aborts_process_witness :
    exC3.step = .abortError "Not implemented"
      { rPC := 1, rX := 1, rY := 2, rA := 3, rStatus := 4, rSP := 5,
        memory := exC3.memory } :=
  step_unrecognized_aborts_process exC3 (by decide) (by decide)

/-- Claim C4.  The switch in `CPU::step` has no case for any JAM opcode, so
fetching any JAM byte falls into the `default` branch: the process is
aborted by `NEZ_ERROR("Not implemented")` (with only the PC advance of the
fetch performed).  No `Halted` status exists in the code, and there is no
subsequent no-op `step`: the process is gone. -/
theorem step_jam_aborts_process (c : CPU) (op : Op)
    (hjam : op ∈ jamOps) (hop : c.mem8 c.rPC = op.val) :
    c.step = .abortError "Not implemented"
      { rPC := (c.rPC + 1) % 256, rX := c.rX, rY := c.rY, rA := c.rA,
        rStatus := c.rStatus, rSP := c.rSP, memory := c.memory } := by
  fin_cases hjam <;>
    exact c.step_eq_of_default (by rw [hop]; decide) (by rw [hop]; decide)

/-- Instantiation of C4's theorem at `exC4` (opcode byte `0x02 = JAM0`,
PC = 0): the step aborts the process instead of halting the CPU. -/
theorem step_jam_aborts_process_witness :
    exC4.step = .abortError "Not implemented"
      { rPC := 1, rX := 1, rY := 2, rA := 3, rStatus := 4, rSP := 5,
        memory := exC4.memory } :=
  step_jam_aborts_process exC4 Op.JAM0 (by decide) (by decide)

/-- Claim C5.  Executing a step whose fetched opcode is `LDAzrpg` (`0xA5`)
with operand byte `a` (a zero-page address holding byte `m`) sets `A = m`
and advances `PC` by 2 (mod 256) — but, contrary to the claim, `Status` is
left exactly unchanged: as for the immediate form, no Z/N flag update
exists in the code. -/
theorem step_LDAzrpg_sets_A_only (c : CPU) (a m : Nat)
    (hop : c.mem8 c.rPC = 0xA5) (ha : c.mem8 ((c.rPC + 1) % 256) = a)
    (hm : c.mem8 a = m) :
    c.step = .ok { rPC := (c.rPC + 2) % 256, rX := c.rX, rY := c.rY, rA := m,
                   rStatus := c.rStatus, rSP := c.rSP, memory := c.memory } := by
  rw [c.step_eq_of_LDAzrpg hop, ha, hm]

/-- Instantiation of C5's theorem at `exC5` (`LDA $10` with `memory[0x10] = 0`,
PC = 0, Status = 0): the accumulator is loaded with 0 and PC ends at 2, yet
Status remains 0 — its Z bit stays clear although the loaded value is zero. -/
theorem step_LDAzrpg_sets_A_only_witness :
    exC5.step = .ok { rPC := 2, rX := 0, rY := 0, rA := 0, rStatus := 0,
                      rSP := 0, memory := exC5.memory } ∧
      Nat.testBit 0 1 = false :=
  ⟨step_LDAzrpg_sets_A_only exC5 0x10 0 (by decide) (by decide) (by decide),
   by decide⟩

/-- Claim C6.  The opcode table of `cpu.hpp` is *not* injective: the
enumerators `JAMB` and `JAMD` are distinct variants that are both assigned
the byte value `0xB2` (the 6502 reference linked in the source and the
`JAMx`-naming pattern — the letter is the high nibble — give `0xD2` for
`JAMD`).  The LDA byte values are as the claim states them. -/
theorem op_table_not_injective :
    Op.JAMB ≠ Op.JAMD ∧ Op.val Op.JAMB = 0xB2 ∧ Op.val Op.JAMD = 0xB2 ∧
      ¬ Function.Injective Op.val ∧
      Op.val Op.LDAimm = 0xA9 ∧ Op.val Op.LDAzrpg = 0xA5 :=
  ⟨by decide, rfl, rfl,
   fun h => absurd (h (show Op.val Op.JAMB = Op.val Op.JAMD from rfl)) (by decide),
   rfl, rfl⟩

/-- Claim C7.  Only value-initialization (`new CPU()`, the form
`std::make_unique<CPU>()` uses in the tests) zeroes the six registers and
the memory array.  The class declares no constructor and no member
initializer, so default-initialization (`CPU c;`) performs no
initialization at all: any member values — here a state with `A = 171` —
are a possible observation of a "newly constructed" CPU, and the claimed
"no uninitialized state after construction" does not hold for it. -/
theorem value_init_zeroes_default_init_does_not :
    defaultInitPossible exC7 ∧ exC7.rA = 171 ∧ exC7.rA ≠ 0 ∧
      CPU.valueInit.rPC = 0 ∧ CPU.valueInit.rX = 0 ∧ CPU.valueInit.rY = 0 ∧
      CPU.valueInit.rA = 0 ∧ CPU.valueInit.rStatus = 0 ∧ CPU.valueInit.rSP = 0 ∧
      CPU.valueInit.read_memory 0 = some 0 ∧
      CPU.valueInit.read_memory 65534 = some 0 :=
  ⟨trivial, rfl, by decide, rfl, rfl, rfl, rfl, rfl, rfl, by decide, by decide⟩

/-- Claim C8.  `reg_val` is total over the closed set of register names:
for each of the six enumerator values of `RegisterName` it returns the
current value of the corresponding register through the matching `case`,
and the `default` branch (`NEZ_ERROR("Attempt to read invalid register")`)
is never reached for any name in the set. -/
theorem reg_val_total_on_register_names (c : CPU) :
    c.reg_val RegisterName.pc.val = .ok c.rPC ∧
      c.reg_val RegisterName.x.val = .ok c.rX ∧
      c.reg_val RegisterName.y.val = .ok c.rY ∧
      c.reg_val RegisterName.a.val = .ok c.rA ∧
      c.reg_val RegisterName.status.val = .ok c.rStatus ∧
      c.reg_val RegisterName.sp.val = .ok c.rSP ∧
      ∀ r : RegisterName, ∀ e : String, c.reg_val r.val ≠ .error e := by
  refine ⟨rfl, rfl, rfl, rfl, rfl, rfl, ?_⟩
  intro r e
  cases r <;> simp [CPU.reg_val, RegisterName.val]

/-- Claim C9.  A step that fetches either implemented LDA opcode returns
normally and changes at most `A` and `PC`: the whole memory and the
registers `X`, `Y`, `SP` and `Status` are left unchanged. -/
theorem step_lda_frame (c : CPU)
    (h : c.mem8 c.rPC = Op.val Op.LDAimm ∨ c.mem8 c.rPC = Op.val Op.LDAzrpg) :
    ∃ c', c.step = .ok c' ∧ c'.memory = c.memory ∧ c'.rX = c.rX ∧
      c'.rY = c.rY ∧ c'.rSP = c.rSP ∧ c'.rStatus = c.rStatus := by
  rcases h with h | h
  · exact ⟨_, c.step_eq_of_LDAimm h, rfl, rfl, rfl, rfl, rfl⟩
  · exact ⟨_, c.step_eq_of_LDAzrpg h, rfl, rfl, rfl, rfl, rfl⟩

/-- Instantiation of C9's theorem at `exC9` (`LDA #$66` at PC = 7 with all
other registers non-zero). -/
theorem step_lda_frame_witness :
    ∃ c', exC9.step = .ok c' ∧ c'.memory = exC9.memory ∧ c'.rX = exC9.rX ∧
      c'.rY = exC9.rY ∧ c'.rSP = exC9.rSP ∧ c'.rStatus = exC9.rStatus :=
  step_lda_frame exC9 (Or.inl (by decide))

/-- Claim C10.  `rPC` is an 8-bit register: the fetch increment wraps
modulo 256, after any step the PC of the resulting state (normal or
aborting) is in `[0, 255]`, and every memory address `step` reads — the
opcode fetch, the operand fetch and the zero-page data read — is in
`[0, 255]`. -/
theorem step_pc_and_read_addrs_bounded (c : CPU) (h : c.rPC < 256) :
    c.next_instr.2.rPC = (c.rPC + 1) % 256 ∧
      c.step.state.rPC < 256 ∧ ∀ a ∈ c.stepReadAddrs, a < 256 := by
  refine ⟨rfl, ?_, ?_⟩
  · by_cases h9 : c.mem8 c.rPC = 0xA9
    · rw [c.step_eq_of_LDAimm h9]; exact Nat.mod_lt _ (by norm_num)
    · by_cases h5 : c.mem8 c.rPC = 0xA5
      · rw [c.step_eq_of_LDAzrpg h5]; exact Nat.mod_lt _ (by norm_num)
      · rw [c.step_eq_of_default h9 h5]; exact Nat.mod_lt _ (by norm_num)
  · have hb := c.mem8_lt ((c.rPC + 1) % 256)
    by_cases h9 : c.mem8 c.rPC = Op.val Op.LDAimm
    · simp [CPU.stepReadAddrs, h9]
      omega
    · by_cases h5 : c.mem8 c.rPC = Op.val Op.LDAzrpg
      · simp [CPU.stepReadAddrs, h9, h5, Op.val]
        omega
      · simp [CPU.stepReadAddrs, h9, h5]
        omega

/-- Instantiation of C10's theorem at `exC10` (`LDA $10` fetched at
PC = 255): the PC increments wrap to 0 and 1, and all three addresses read
(255, 0 and 16) are in the zero page. -/
theorem step_pc_and_read_addrs_bounded_witness :
    exC10.next_instr.2.rPC = (exC10.rPC + 1) % 256 ∧
      exC10.step.state.rPC < 256 ∧ ∀ a ∈ exC10.stepReadAddrs, a < 256 :=
  step_pc_and_read_addrs_bounded exC10 (by decide)

end nez
